import Mathlib

/-!
# Maxine VM: `Native/hosted/boxedMemory.c`

A shallow embedding of the two JNI entry points of `boxedMemory.c`

    return (jlong) ((Address) malloc((size_t) size));

    free((void *) ((Address) pointer));
    return 0;

The C library allocator is an external collaborator.  It is taken as a pair of
abstract functions over an explicit heap state.  `malloc` always returns (the null
address when it cannot serve the request).  `free` need not return: handed an
address that is neither null nor the start of a live block its behaviour is
undefined and C libraries typically abort the process, so `free` yields `none`
where the call does not come back.  The integer types that the
absent headers declare (`Address` from `word.h`, `size_t` from `stdlib.h`) enter
as the two width parameters of a `Platform`; `jlong` and `jint` are the 64-bit and
32-bit signed integers fixed by the JNI specification.
-/

namespace BoxedMemory

/-! ## C integer conversions -/

/-- Value of a C conversion of the integer `v` to an unsigned integer type that is
`bits` bits wide: reduction modulo `2 ^ bits`. -/
def toUnsigned (bits : Nat) (v : Int) : Nat :=
  (v % (2 : Int) ^ bits).toNat

/-- Value of a C conversion of the integer `v` to a signed integer type that is
`bits` bits wide: the representative of `v` modulo `2 ^ bits` in the range from
`-2 ^ (bits - 1)` up to, not including, `2 ^ (bits - 1)`. -/
def toSigned (bits : Nat) (v : Int) : Int :=
  let u := v % (2 : Int) ^ bits
  if u < (2 : Int) ^ (bits - 1) then u else u - (2 : Int) ^ bits

/-- Width of the JNI type `jlong`. -/
def jlongBits : Nat := 64

/-! ## The platform allocator and the process -/

/-- Handle of the JNI environment (`JNIEnv *`); the entry points never look at it. -/
abbrev JNIEnv := Nat

/-- Handle of the calling class (`jclass`); the entry points never look at it. -/
abbrev jclass := Nat

/-- The platform the file is compiled for.  `wordBits` is the width of `Address`
(the unsigned machine word of `word.h`, as wide as a pointer), `sizeBits` the width
of `size_t`.  `malloc` maps a heap state and a byte count to the returned address
(0 is the null pointer) and the next heap state; `free` maps a heap state and an
address to the next heap state, or to `none` when the call does not return (the
library aborts the process, or the behaviour is undefined). -/
structure Platform (σ : Type) where
  wordBits : Nat
  sizeBits : Nat
  malloc : σ → Nat → Nat × σ
  free : σ → Nat → Option σ

/-- One call into the platform allocator together with its argument. -/
inductive AllocatorCall where
  | malloc (bytes : Nat)
  | free (ptr : Nat)
  deriving DecidableEq, Repr

/-- State of the process as seen by the bridge: the heap of the platform allocator,
and the history of the allocator calls issued so far (a ghost record that no code
reads). -/
structure Process (σ : Type) where
  heap : σ
  calls : List AllocatorCall

/-- The statement `malloc(bytes)`: one request to the platform allocator. -/
def Platform.callMalloc {σ : Type} (P : Platform σ) (w : Process σ) (bytes : Nat) :
    Nat × Process σ :=
  let r := P.malloc w.heap bytes
  (r.1, { heap := r.2, calls := w.calls ++ [AllocatorCall.malloc bytes] })

/-- How a run of code that may call `free` ends: it returns a value and leaves a
process state, or it is stuck in an allocator call that never came back, and then
only the calls issued up to and including that one are left. -/
inductive Run (σ : Type) (α : Type) where
  | returned (value : α) (w : Process σ)
  | stuck (calls : List AllocatorCall)

/-- The allocator calls issued in the run, whether or not it returned. -/
def Run.calls {σ α : Type} : Run σ α → List AllocatorCall
  | Run.returned _ w => w.calls
  | Run.stuck cs => cs

/-- The heap the run leaves, when it returned. -/
def Run.heap {σ α : Type} : Run σ α → Option σ
  | Run.returned _ w => some w.heap
  | Run.stuck _ => none

/-- The value the run returned, when it returned. -/
def Run.value {σ α : Type} : Run σ α → Option α
  | Run.returned v _ => some v
  | Run.stuck _ => none

/-- Sequencing `r; return v;`: the value `v` is returned only when `r` came back. -/
def Run.thenReturn {σ α : Type} (r : Run σ Unit) (v : α) : Run σ α :=
  match r with
  | Run.returned _ w => Run.returned v w
  | Run.stuck cs => Run.stuck cs

/-- The statement `free(ptr)`: one release handed to the platform allocator.  The
call is issued in any case; control comes back only when `free` returns. -/
def Platform.callFree {σ : Type} (P : Platform σ) (w : Process σ) (ptr : Nat) :
    Run σ Unit :=
  match P.free w.heap ptr with
  | some heap1 =>
    Run.returned () { heap := heap1, calls := w.calls ++ [AllocatorCall.free ptr] }
  | none => Run.stuck (w.calls ++ [AllocatorCall.free ptr])

/-! ## The two entry points -/

/-- The cast `(size_t) size` of line 35. -/
def sizeArgument {σ : Type} (P : Platform σ) (size : Int) : Nat :=
  toUnsigned P.sizeBits size

/-- The cast `(Address) p` of a pointer value. -/
def pointerToAddress {σ : Type} (P : Platform σ) (p : Nat) : Nat :=
  toUnsigned P.wordBits (p : Int)

/-- The cast `(jlong) a` of an `Address`. -/
def addressToJlong (a : Nat) : Int :=
  toSigned jlongBits (a : Int)

/-- The cast `(void *) ((Address) pointer)` of line 41: the `jlong` is converted to
the unsigned machine word, which is then read as a pointer of the same width. -/
def jlongToPointer {σ : Type} (P : Platform σ) (pointer : Int) : Nat :=
  toUnsigned P.wordBits pointer

/-- Embedding of `Java_com_sun_max_memory_BoxedMemory_nativeAllocate`:
`return (jlong) ((Address) malloc((size_t) size));` -/
def Java_com_sun_max_memory_BoxedMemory_nativeAllocate {σ : Type} (P : Platform σ)
    (_env : JNIEnv) (_c : jclass) (size : Int) (w : Process σ) : Int × Process σ :=
  let r := P.callMalloc w (sizeArgument P size)
  (addressToJlong (pointerToAddress P r.1), r.2)

/-- Embedding of `Java_com_sun_max_memory_BoxedMemory_nativeDeallocate`:
`free((void *) ((Address) pointer)); return 0;`  Line 42 is reached only when the
call of line 41 returns. -/
def Java_com_sun_max_memory_BoxedMemory_nativeDeallocate {σ : Type} (P : Platform σ)
    (_env : JNIEnv) (_c : jclass) (pointer : Int) (w : Process σ) : Run σ Int :=
  (P.callFree w (jlongToPointer P pointer)).thenReturn 0

/-! ## A concrete platform used to evaluate the entry points -/

/-- Heap of a small bump allocator: the next unused address and the live blocks
(start address, byte count). -/
structure DemoHeap where
  brk : Nat
  live : List (Nat × Nat)
  deriving DecidableEq, Repr

/-- Bump allocation below the address `limit`; the null address when the request
does not fit. -/
def demoMalloc (limit : Nat) (h : DemoHeap) (bytes : Nat) : Nat × DemoHeap :=
  if h.brk + bytes ≤ limit then
    (h.brk, { brk := h.brk + bytes + 1, live := (h.brk, bytes) :: h.live })
  else
    (0, h)

/-- Release in the manner of a checking C library: the null address is ignored,
the live block that starts at `ptr` is no longer live, and any other address (never
handed out, or released before) aborts the process, so the call does not return. -/
def demoFree (h : DemoHeap) (ptr : Nat) : Option DemoHeap :=
  if ptr = 0 then
    some h
  else if h.live.any (fun b => b.1 = ptr) then
    some { h with live := h.live.filter (fun b => b.1 ≠ ptr) }
  else
    none

/-- A 64-bit platform with a bump allocator over the addresses below `limit`. -/
def demoPlatform (limit : Nat) : Platform DemoHeap where
  wordBits := 64
  sizeBits := 64
  malloc := demoMalloc limit
  free := demoFree

/-- A process whose allocator has handed out nothing yet. -/
def demoStart (brk : Nat) : Process DemoHeap :=
  { heap := { brk := brk, live := [] }, calls := [] }

/-! ## Arithmetic of the conversions -/

theorem toUnsigned_natCast_of_lt (bits a : Nat) (h : a < 2 ^ bits) :
    toUnsigned bits (a : Int) = a := by
  unfold toUnsigned
  have h1 : ((a : Int)) < (2 : Int) ^ bits := by exact_mod_cast h
  rw [Int.emod_eq_of_lt (Int.natCast_nonneg a) h1]
  exact Int.toNat_natCast a

theorem toUnsigned_lt (bits : Nat) (v : Int) : toUnsigned bits v < 2 ^ bits := by
  unfold toUnsigned
  have hpos : (0 : Int) < (2 : Int) ^ bits := by positivity
  have h1 := Int.emod_lt_of_pos v hpos
  have h0 := Int.emod_nonneg v (ne_of_gt hpos)
  have h2 : ((v % (2 : Int) ^ bits).toNat : Int) < ((2 ^ bits : Nat) : Int) := by
    rw [Int.toNat_of_nonneg h0]
    exact_mod_cast h1
  exact_mod_cast h2

theorem addressToJlong_of_lt (a : Nat) (h : a < 2 ^ 64) :
    addressToJlong a = if a < 2 ^ 63 then (a : Int) else (a : Int) - (2 : Int) ^ 64 := by
  unfold addressToJlong toSigned jlongBits
  have h1 : ((a : Int)) < (2 : Int) ^ 64 := by exact_mod_cast h
  rw [Int.emod_eq_of_lt (Int.natCast_nonneg a) h1]
  by_cases hlt : a < 2 ^ 63
  · have h2 : ((a : Int)) < (2 : Int) ^ 63 := by exact_mod_cast hlt
    simp [hlt, h2]
  · have h2 : ¬ ((a : Int)) < (2 : Int) ^ 63 := by
      intro hc
      exact hlt (by exact_mod_cast hc)
    simp [hlt, h2]

theorem pow_wordBits_le (bits : Nat) (h : bits ≤ 64) : 2 ^ bits ≤ 2 ^ 64 :=
  Nat.pow_le_pow_right (by decide) h

theorem addressToJlong_eq_zero_iff (a : Nat) (h : a < 2 ^ 64) :
    addressToJlong a = 0 ↔ a = 0 := by
  rw [addressToJlong_of_lt a h]
  by_cases hlt : a < 2 ^ 63
  · rw [if_pos hlt]
    exact Int.natCast_eq_zero
  · rw [if_neg hlt]
    constructor
    · intro h0
      omega
    · intro h0
      omega

theorem jlong_round_trip (bits a : Nat) (hw : bits ≤ 64) (ha : a < 2 ^ bits) :
    toUnsigned bits (addressToJlong (toUnsigned bits (a : Int))) = a := by
  rw [toUnsigned_natCast_of_lt bits a ha]
  have h64 : a < 2 ^ 64 := lt_of_lt_of_le ha (pow_wordBits_le bits hw)
  rw [addressToJlong_of_lt a h64]
  by_cases hlt : a < 2 ^ 63
  · rw [if_pos hlt]
    exact toUnsigned_natCast_of_lt bits a ha
  · rw [if_neg hlt]
    have hb : bits = 64 := by
      by_contra hne
      have h63 : bits ≤ 63 := by omega
      have : 2 ^ bits ≤ 2 ^ 63 := Nat.pow_le_pow_right (by decide) h63
      omega
    subst hb
    unfold toUnsigned
    have h1 : ((a : Int) - (2 : Int) ^ 64) % (2 : Int) ^ 64 = (a : Int) := by
      rw [Int.sub_emod, Int.emod_self, sub_zero, Int.emod_emod]
      exact Int.emod_eq_of_lt (Int.natCast_nonneg a) (by exact_mod_cast h64)
    rw [h1]
    exact Int.toNat_natCast a

theorem sizeArgument_of_nonneg (bits : Nat) (s : Int) (h0 : 0 ≤ s) (h1 : s < (2 : Int) ^ bits) :
    toUnsigned bits s = s.toNat := by
  unfold toUnsigned
  rw [Int.emod_eq_of_lt h0 h1]

theorem nativeAllocate_eq {σ : Type} (P : Platform σ) (env : JNIEnv) (c : jclass)
    (size : Int) (w : Process σ) :
    Java_com_sun_max_memory_BoxedMemory_nativeAllocate P env c size w =
      (addressToJlong (pointerToAddress P (P.malloc w.heap (sizeArgument P size)).1),
        (P.callMalloc w (sizeArgument P size)).2) :=
  rfl

theorem nativeAllocate_value {σ : Type} (P : Platform σ) (env : JNIEnv) (c : jclass)
    (size : Int) (w : Process σ) :
    (Java_com_sun_max_memory_BoxedMemory_nativeAllocate P env c size w).1 =
      addressToJlong (pointerToAddress P (P.malloc w.heap (sizeArgument P size)).1) := by
  rw [nativeAllocate_eq]

theorem nativeAllocate_process {σ : Type} (P : Platform σ) (env : JNIEnv) (c : jclass)
    (size : Int) (w : Process σ) :
    (Java_com_sun_max_memory_BoxedMemory_nativeAllocate P env c size w).2 =
      (P.callMalloc w (sizeArgument P size)).2 :=
  rfl

theorem nativeDeallocate_eq {σ : Type} (P : Platform σ) (env : JNIEnv) (c : jclass)
    (pointer : Int) (w : Process σ) :
    Java_com_sun_max_memory_BoxedMemory_nativeDeallocate P env c pointer w =
      (P.callFree w (jlongToPointer P pointer)).thenReturn 0 :=
  rfl

theorem callFree_thenReturn_calls {σ α : Type} (P : Platform σ) (w : Process σ)
    (ptr : Nat) (v : α) :
    ((P.callFree w ptr).thenReturn v).calls = w.calls ++ [AllocatorCall.free ptr] := by
  unfold Platform.callFree
  cases P.free w.heap ptr <;> rfl

theorem callFree_thenReturn_heap {σ α : Type} (P : Platform σ) (w : Process σ)
    (ptr : Nat) (v : α) :
    ((P.callFree w ptr).thenReturn v).heap = P.free w.heap ptr := by
  unfold Platform.callFree
  cases P.free w.heap ptr <;> rfl

theorem callFree_thenReturn_value {σ α : Type} (P : Platform σ) (w : Process σ)
    (ptr : Nat) (v : α) :
    ((P.callFree w ptr).thenReturn v).value = (P.free w.heap ptr).map (fun _ => v) := by
  unfold Platform.callFree
  cases P.free w.heap ptr <;> rfl

theorem callMalloc_calls {σ : Type} (P : Platform σ) (w : Process σ) (bytes : Nat) :
    (P.callMalloc w bytes).2.calls = w.calls ++ [AllocatorCall.malloc bytes] :=
  rfl

theorem callMalloc_heap {σ : Type} (P : Platform σ) (w : Process σ) (bytes : Nat) :
    (P.callMalloc w bytes).2.heap = (P.malloc w.heap bytes).2 :=
  rfl

theorem pointerToAddress_of_lt {σ : Type} (P : Platform σ) (p : Nat)
    (h : p < 2 ^ P.wordBits) : pointerToAddress P p = p :=
  toUnsigned_natCast_of_lt P.wordBits p h

/-! ## Properties of the entry points -/

/-- C1: with a native address width of at most 64 bits and an allocator whose
returned address is a native address, `nativeAllocate` returns the handle 0 exactly
when the allocator returned the null address for the request, and a non-null
address gives a non-zero handle. -/
theorem nativeAllocate_zero_iff_null {σ : Type} (P : Platform σ) (env : JNIEnv)
    (c : jclass) (size : Int) (w : Process σ) (hw : P.wordBits ≤ 64)
    (hfit : (P.malloc w.heap (sizeArgument P size)).1 < 2 ^ P.wordBits) :
    ((Java_com_sun_max_memory_BoxedMemory_nativeAllocate P env c size w).1 = 0 ↔
        (P.malloc w.heap (sizeArgument P size)).1 = 0) ∧
      ((P.malloc w.heap (sizeArgument P size)).1 ≠ 0 →
        (Java_com_sun_max_memory_BoxedMemory_nativeAllocate P env c size w).1 ≠ 0) := by
  have h64 : (P.malloc w.heap (sizeArgument P size)).1 < 2 ^ 64 :=
    lt_of_lt_of_le hfit (pow_wordBits_le P.wordBits hw)
  have hval : (Java_com_sun_max_memory_BoxedMemory_nativeAllocate P env c size w).1 =
      addressToJlong (P.malloc w.heap (sizeArgument P size)).1 := by
    rw [nativeAllocate_value, pointerToAddress_of_lt P _ hfit]
  have hiff := addressToJlong_eq_zero_iff _ h64
  rw [hval]
  exact ⟨hiff, fun hne h0 => hne (hiff.mp h0)⟩

/-- C1 at an exhausted allocator: a request for `2 ^ 30` bytes on the demo platform
with `2 ^ 20` addresses gets the null address and the handle 0. -/
theorem nativeAllocate_zero_iff_null_witness :
    (demoPlatform (2 ^ 20)).wordBits ≤ 64 ∧
      ((demoPlatform (2 ^ 20)).malloc (demoStart 4096).heap
          (sizeArgument (demoPlatform (2 ^ 20)) (2 ^ 30))).1 <
        2 ^ (demoPlatform (2 ^ 20)).wordBits ∧
      (((Java_com_sun_max_memory_BoxedMemory_nativeAllocate (demoPlatform (2 ^ 20)) 0 0
            (2 ^ 30) (demoStart 4096)).1 = 0 ↔
          ((demoPlatform (2 ^ 20)).malloc (demoStart 4096).heap
            (sizeArgument (demoPlatform (2 ^ 20)) (2 ^ 30))).1 = 0) ∧
        (((demoPlatform (2 ^ 20)).malloc (demoStart 4096).heap
            (sizeArgument (demoPlatform (2 ^ 20)) (2 ^ 30))).1 ≠ 0 →
          (Java_com_sun_max_memory_BoxedMemory_nativeAllocate (demoPlatform (2 ^ 20)) 0 0
            (2 ^ 30) (demoStart 4096)).1 ≠ 0)) :=
  ⟨by decide, by decide,
    nativeAllocate_zero_iff_null (demoPlatform (2 ^ 20)) 0 0 (2 ^ 30) (demoStart 4096)
      (by decide) (by decide)⟩

/-- C2, as the code has it: `nativeDeallocate` returns a status exactly when the
`free` of the platform returns for the address converted from the handle, the
status it then returns is 0, and no handle and no process state make it return
another status. -/
theorem nativeDeallocate_status_zero_if_free_returns {σ : Type} (P : Platform σ)
    (env : JNIEnv) (c : jclass) (pointer : Int) (w : Process σ) :
    ((Java_com_sun_max_memory_BoxedMemory_nativeDeallocate P env c pointer w).value = some 0 ↔
        (P.free w.heap (jlongToPointer P pointer)).isSome = true) ∧
      ((Java_com_sun_max_memory_BoxedMemory_nativeDeallocate P env c pointer w).value = none ↔
        P.free w.heap (jlongToPointer P pointer) = none) ∧
      (∀ s : Int,
        (Java_com_sun_max_memory_BoxedMemory_nativeDeallocate P env c pointer w).value = some s →
          s = 0) := by
  rw [nativeDeallocate_eq, callFree_thenReturn_value]
  cases P.free w.heap (jlongToPointer P pointer) with
  | none => simp
  | some heap1 =>
    refine ⟨by simp, by simp, ?_⟩
    intro s hs
    simp only [Option.map_some', Option.some.injEq] at hs
    exact hs.symm

/-- C2, as the code has it, on the demo platform: the block allocated at 4096 is
live, `free` returns for it, and the status is 0. -/
theorem nativeDeallocate_status_zero_if_free_returns_witness :
    ((demoPlatform (2 ^ 20)).free
          (Java_com_sun_max_memory_BoxedMemory_nativeAllocate (demoPlatform (2 ^ 20)) 0 0
            1024 (demoStart 4096)).2.heap
          (jlongToPointer (demoPlatform (2 ^ 20)) 4096)).isSome = true ∧
      (Java_com_sun_max_memory_BoxedMemory_nativeDeallocate (demoPlatform (2 ^ 20)) 0 0 4096
          (Java_com_sun_max_memory_BoxedMemory_nativeAllocate (demoPlatform (2 ^ 20)) 0 0
            1024 (demoStart 4096)).2).value = some 0 :=
  ⟨by decide,
    (nativeDeallocate_status_zero_if_free_returns (demoPlatform (2 ^ 20)) 0 0 4096
      (Java_com_sun_max_memory_BoxedMemory_nativeAllocate (demoPlatform (2 ^ 20)) 0 0
        1024 (demoStart 4096)).2).1.mpr (by decide)⟩

/-- C2 as stated fails on the demo platform: for the never issued handle 12345 the
call of `free` does not return, so no status is returned; and after the block at
4096 has been allocated and released once (status 0), releasing the same handle
again returns no status either. -/
theorem nativeDeallocate_status_zero_counterexample :
    (Java_com_sun_max_memory_BoxedMemory_nativeDeallocate (demoPlatform (2 ^ 20)) 0 0 12345
          (demoStart 4096)).value ≠ some 0 ∧
      (Java_com_sun_max_memory_BoxedMemory_nativeDeallocate (demoPlatform (2 ^ 20)) 0 0 12345
          (demoStart 4096)).value = none ∧
      (Java_com_sun_max_memory_BoxedMemory_nativeDeallocate (demoPlatform (2 ^ 20)) 0 0 4096
          (Java_com_sun_max_memory_BoxedMemory_nativeAllocate (demoPlatform (2 ^ 20)) 0 0
            1024 (demoStart 4096)).2) =
        Run.returned 0
          { heap := { brk := 5121, live := [] },
            calls := [AllocatorCall.malloc 1024, AllocatorCall.free 4096] } ∧
      (Java_com_sun_max_memory_BoxedMemory_nativeDeallocate (demoPlatform (2 ^ 20)) 0 0 4096
          { heap := { brk := 5121, live := [] },
            calls := [AllocatorCall.malloc 1024, AllocatorCall.free 4096] }).value ≠ some 0 :=
  ⟨by decide, by decide, by rfl, by decide⟩

/-- C3: handle round trip.  With an address width of at most 64 bits, every native
address `a` converted to a handle as `nativeAllocate` does and back as
`nativeDeallocate` does gives `a` again; and `nativeDeallocate` applied to the
handle that `nativeAllocate` returned hands to `free` exactly the address that
`malloc` returned: it is the one call of `free` on that address, in the heap that
`malloc` left. -/
theorem handle_round_trip {σ : Type} (P : Platform σ) (env : JNIEnv) (c : jclass)
    (a : Nat) (size : Int) (w : Process σ) (hw : P.wordBits ≤ 64)
    (ha : a < 2 ^ P.wordBits)
    (hfit : (P.malloc w.heap (sizeArgument P size)).1 < 2 ^ P.wordBits) :
    jlongToPointer P (addressToJlong (pointerToAddress P a)) = a ∧
      Java_com_sun_max_memory_BoxedMemory_nativeDeallocate P env c
          (Java_com_sun_max_memory_BoxedMemory_nativeAllocate P env c size w).1
          (Java_com_sun_max_memory_BoxedMemory_nativeAllocate P env c size w).2 =
        (P.callFree (P.callMalloc w (sizeArgument P size)).2
          (P.malloc w.heap (sizeArgument P size)).1).thenReturn 0 ∧
      (Java_com_sun_max_memory_BoxedMemory_nativeDeallocate P env c
          (Java_com_sun_max_memory_BoxedMemory_nativeAllocate P env c size w).1
          (Java_com_sun_max_memory_BoxedMemory_nativeAllocate P env c size w).2).calls =
        w.calls ++ [AllocatorCall.malloc (sizeArgument P size),
          AllocatorCall.free (P.malloc w.heap (sizeArgument P size)).1] ∧
      (Java_com_sun_max_memory_BoxedMemory_nativeDeallocate P env c
          (Java_com_sun_max_memory_BoxedMemory_nativeAllocate P env c size w).1
          (Java_com_sun_max_memory_BoxedMemory_nativeAllocate P env c size w).2).heap =
        P.free (P.malloc w.heap (sizeArgument P size)).2
          (P.malloc w.heap (sizeArgument P size)).1 := by
  have hrt : jlongToPointer P (addressToJlong (pointerToAddress P
      (P.malloc w.heap (sizeArgument P size)).1)) = (P.malloc w.heap (sizeArgument P size)).1 :=
    jlong_round_trip P.wordBits (P.malloc w.heap (sizeArgument P size)).1 hw hfit
  have heq : Java_com_sun_max_memory_BoxedMemory_nativeDeallocate P env c
      (Java_com_sun_max_memory_BoxedMemory_nativeAllocate P env c size w).1
      (Java_com_sun_max_memory_BoxedMemory_nativeAllocate P env c size w).2 =
      (P.callFree (P.callMalloc w (sizeArgument P size)).2
        (P.malloc w.heap (sizeArgument P size)).1).thenReturn 0 := by
    rw [nativeDeallocate_eq, nativeAllocate_value, nativeAllocate_process, hrt]
  refine ⟨jlong_round_trip P.wordBits a hw ha, heq, ?_, ?_⟩
  · rw [heq, callFree_thenReturn_calls, callMalloc_calls, List.append_assoc]
    rfl
  · rw [heq, callFree_thenReturn_heap, callMalloc_heap]

/-- C3 on the demo platform: the address `2 ^ 63 + 5` survives the round trip, and
the block of 1024 bytes allocated at 4096 is the one handed to `free`. -/
theorem handle_round_trip_witness :
    (demoPlatform (2 ^ 20)).wordBits ≤ 64 ∧
      2 ^ 63 + 5 < 2 ^ (demoPlatform (2 ^ 20)).wordBits ∧
      ((demoPlatform (2 ^ 20)).malloc (demoStart 4096).heap
          (sizeArgument (demoPlatform (2 ^ 20)) 1024)).1 <
        2 ^ (demoPlatform (2 ^ 20)).wordBits ∧
      (jlongToPointer (demoPlatform (2 ^ 20))
            (addressToJlong (pointerToAddress (demoPlatform (2 ^ 20)) (2 ^ 63 + 5))) =
          2 ^ 63 + 5 ∧
        Java_com_sun_max_memory_BoxedMemory_nativeDeallocate (demoPlatform (2 ^ 20)) 0 0
            (Java_com_sun_max_memory_BoxedMemory_nativeAllocate (demoPlatform (2 ^ 20)) 0 0
              1024 (demoStart 4096)).1
            (Java_com_sun_max_memory_BoxedMemory_nativeAllocate (demoPlatform (2 ^ 20)) 0 0
              1024 (demoStart 4096)).2 =
          ((demoPlatform (2 ^ 20)).callFree
            ((demoPlatform (2 ^ 20)).callMalloc (demoStart 4096)
              (sizeArgument (demoPlatform (2 ^ 20)) 1024)).2
            ((demoPlatform (2 ^ 20)).malloc (demoStart 4096).heap
              (sizeArgument (demoPlatform (2 ^ 20)) 1024)).1).thenReturn 0 ∧
        (Java_com_sun_max_memory_BoxedMemory_nativeDeallocate (demoPlatform (2 ^ 20)) 0 0
            (Java_com_sun_max_memory_BoxedMemory_nativeAllocate (demoPlatform (2 ^ 20)) 0 0
              1024 (demoStart 4096)).1
            (Java_com_sun_max_memory_BoxedMemory_nativeAllocate (demoPlatform (2 ^ 20)) 0 0
              1024 (demoStart 4096)).2).calls =
          (demoStart 4096).calls ++
            [AllocatorCall.malloc (sizeArgument (demoPlatform (2 ^ 20)) 1024),
              AllocatorCall.free ((demoPlatform (2 ^ 20)).malloc (demoStart 4096).heap
                (sizeArgument (demoPlatform (2 ^ 20)) 1024)).1] ∧
        (Java_com_sun_max_memory_BoxedMemory_nativeDeallocate (demoPlatform (2 ^ 20)) 0 0
            (Java_com_sun_max_memory_BoxedMemory_nativeAllocate (demoPlatform (2 ^ 20)) 0 0
              1024 (demoStart 4096)).1
            (Java_com_sun_max_memory_BoxedMemory_nativeAllocate (demoPlatform (2 ^ 20)) 0 0
              1024 (demoStart 4096)).2).heap =
          (demoPlatform (2 ^ 20)).free
            ((demoPlatform (2 ^ 20)).malloc (demoStart 4096).heap
              (sizeArgument (demoPlatform (2 ^ 20)) 1024)).2
            ((demoPlatform (2 ^ 20)).malloc (demoStart 4096).heap
              (sizeArgument (demoPlatform (2 ^ 20)) 1024)).1) :=
  ⟨by decide, by decide, by decide,
    handle_round_trip (demoPlatform (2 ^ 20)) 0 0 (2 ^ 63 + 5) 1024 (demoStart 4096)
      (by decide) (by decide) (by decide)⟩

/-- C4: with an address width of at most 64 bits, the handle `nativeAllocate`
returns is the address the allocator returned, read as a signed 64-bit integer:
the address itself below `2 ^ 63`, the address minus `2 ^ 64` from there on. -/
theorem nativeAllocate_handle_is_address {σ : Type} (P : Platform σ) (env : JNIEnv)
    (c : jclass) (size : Int) (w : Process σ) (hw : P.wordBits ≤ 64)
    (hfit : (P.malloc w.heap (sizeArgument P size)).1 < 2 ^ P.wordBits) :
    (Java_com_sun_max_memory_BoxedMemory_nativeAllocate P env c size w).1 =
      if (P.malloc w.heap (sizeArgument P size)).1 < 2 ^ 63 then
        ((P.malloc w.heap (sizeArgument P size)).1 : Int)
      else
        ((P.malloc w.heap (sizeArgument P size)).1 : Int) - (2 : Int) ^ 64 := by
  have h64 : (P.malloc w.heap (sizeArgument P size)).1 < 2 ^ 64 :=
    lt_of_lt_of_le hfit (pow_wordBits_le P.wordBits hw)
  rw [nativeAllocate_value, pointerToAddress_of_lt P _ hfit]
  exact addressToJlong_of_lt _ h64

/-- C4 in the upper half of the address space: the block the demo allocator places
at `2 ^ 63 + 16` has the handle `2 ^ 63 + 16 - 2 ^ 64`. -/
theorem nativeAllocate_handle_is_address_witness :
    (demoPlatform (2 ^ 64 - 1)).wordBits ≤ 64 ∧
      ((demoPlatform (2 ^ 64 - 1)).malloc (demoStart (2 ^ 63 + 16)).heap
          (sizeArgument (demoPlatform (2 ^ 64 - 1)) 32)).1 <
        2 ^ (demoPlatform (2 ^ 64 - 1)).wordBits ∧
      (Java_com_sun_max_memory_BoxedMemory_nativeAllocate (demoPlatform (2 ^ 64 - 1)) 0 0 32
          (demoStart (2 ^ 63 + 16))).1 =
        if ((demoPlatform (2 ^ 64 - 1)).malloc (demoStart (2 ^ 63 + 16)).heap
            (sizeArgument (demoPlatform (2 ^ 64 - 1)) 32)).1 < 2 ^ 63 then
          (((demoPlatform (2 ^ 64 - 1)).malloc (demoStart (2 ^ 63 + 16)).heap
            (sizeArgument (demoPlatform (2 ^ 64 - 1)) 32)).1 : Int)
        else
          (((demoPlatform (2 ^ 64 - 1)).malloc (demoStart (2 ^ 63 + 16)).heap
            (sizeArgument (demoPlatform (2 ^ 64 - 1)) 32)).1 : Int) - (2 : Int) ^ 64 :=
  ⟨by decide, by decide,
    nativeAllocate_handle_is_address (demoPlatform (2 ^ 64 - 1)) 0 0 32
      (demoStart (2 ^ 63 + 16)) (by decide) (by decide)⟩

/-- C5: with a 64-bit `size_t`, for every size `s` with `0 ≤ s < 2 ^ 63` the one
request `nativeAllocate` issues to the allocator asks for exactly `s` bytes. -/
theorem nativeAllocate_requests_size {σ : Type} (P : Platform σ) (env : JNIEnv)
    (c : jclass) (s : Int) (w : Process σ) (hs : P.sizeBits = 64)
    (h0 : 0 ≤ s) (h1 : s < (2 : Int) ^ 63) :
    ((sizeArgument P s : Nat) : Int) = s ∧
      (Java_com_sun_max_memory_BoxedMemory_nativeAllocate P env c s w).2.calls =
        w.calls ++ [AllocatorCall.malloc s.toNat] ∧
      (Java_com_sun_max_memory_BoxedMemory_nativeAllocate P env c s w).2.heap =
        (P.malloc w.heap s.toNat).2 := by
  have harg : sizeArgument P s = s.toNat := by
    unfold sizeArgument
    rw [hs]
    exact sizeArgument_of_nonneg 64 s h0 (by omega)
  refine ⟨?_, ?_, ?_⟩
  · rw [harg]
    exact Int.toNat_of_nonneg h0
  · rw [nativeAllocate_process, callMalloc_calls, harg]
  · rw [nativeAllocate_process, callMalloc_heap, harg]

/-- C5 at the size 1024 on the demo platform. -/
theorem nativeAllocate_requests_size_witness :
    (demoPlatform (2 ^ 20)).sizeBits = 64 ∧ (0 : Int) ≤ 1024 ∧ (1024 : Int) < (2 : Int) ^ 63 ∧
      (((sizeArgument (demoPlatform (2 ^ 20)) 1024 : Nat) : Int) = 1024 ∧
        (Java_com_sun_max_memory_BoxedMemory_nativeAllocate (demoPlatform (2 ^ 20)) 0 0 1024
            (demoStart 4096)).2.calls =
          (demoStart 4096).calls ++ [AllocatorCall.malloc (1024 : Int).toNat] ∧
        (Java_com_sun_max_memory_BoxedMemory_nativeAllocate (demoPlatform (2 ^ 20)) 0 0 1024
            (demoStart 4096)).2.heap =
          ((demoPlatform (2 ^ 20)).malloc (demoStart 4096).heap (1024 : Int).toNat).2) :=
  ⟨by decide, by decide, by decide,
    nativeAllocate_requests_size (demoPlatform (2 ^ 20)) 0 0 1024 (demoStart 4096)
      (by decide) (by decide) (by decide)⟩

/-- C6: the heap after `nativeAllocate` is the heap after one allocator request for
the converted size, and that request is the only allocator call it adds; the value
and the heap either entry point produces (for `nativeDeallocate`: whether it
returns at all, and with which value and heap) are the same for any `env`, any
class and any earlier history of calls. -/
theorem entry_points_stateless {σ : Type} (P : Platform σ) (env env2 : JNIEnv)
    (c c2 : jclass) (arg : Int) (heap : σ) (t t2 : List AllocatorCall) :
    (Java_com_sun_max_memory_BoxedMemory_nativeAllocate P env c arg ⟨heap, t⟩).2.heap =
        (P.malloc heap (sizeArgument P arg)).2 ∧
      (Java_com_sun_max_memory_BoxedMemory_nativeAllocate P env c arg ⟨heap, t⟩).2.calls =
        t ++ [AllocatorCall.malloc (sizeArgument P arg)] ∧
      (Java_com_sun_max_memory_BoxedMemory_nativeAllocate P env2 c2 arg ⟨heap, t2⟩).1 =
        (Java_com_sun_max_memory_BoxedMemory_nativeAllocate P env c arg ⟨heap, t⟩).1 ∧
      (Java_com_sun_max_memory_BoxedMemory_nativeAllocate P env2 c2 arg ⟨heap, t2⟩).2.heap =
        (Java_com_sun_max_memory_BoxedMemory_nativeAllocate P env c arg ⟨heap, t⟩).2.heap ∧
      (Java_com_sun_max_memory_BoxedMemory_nativeDeallocate P env2 c2 arg ⟨heap, t2⟩).value =
        (Java_com_sun_max_memory_BoxedMemory_nativeDeallocate P env c arg ⟨heap, t⟩).value ∧
      (Java_com_sun_max_memory_BoxedMemory_nativeDeallocate P env2 c2 arg ⟨heap, t2⟩).heap =
        (Java_com_sun_max_memory_BoxedMemory_nativeDeallocate P env c arg ⟨heap, t⟩).heap := by
  refine ⟨rfl, rfl, rfl, rfl, ?_, ?_⟩
  · rw [nativeDeallocate_eq, nativeDeallocate_eq, callFree_thenReturn_value,
      callFree_thenReturn_value]
  · rw [nativeDeallocate_eq, nativeDeallocate_eq, callFree_thenReturn_heap,
      callFree_thenReturn_heap]

/-- C7: for every handle `h`, `nativeDeallocate` issues exactly one allocator
call, the release of the address converted from `h`, whether or not that call
returns; the heap afterwards is the one `free` produced for that address, and the
only status the bridge ever returns is 0, returned whenever `free` returns. -/
theorem nativeDeallocate_forwards {σ : Type} (P : Platform σ) (env : JNIEnv)
    (c : jclass) (h : Int) (w : Process σ) :
    (Java_com_sun_max_memory_BoxedMemory_nativeDeallocate P env c h w).calls =
        w.calls ++ [AllocatorCall.free (toUnsigned P.wordBits h)] ∧
      (Java_com_sun_max_memory_BoxedMemory_nativeDeallocate P env c h w).heap =
        P.free w.heap (toUnsigned P.wordBits h) ∧
      (Java_com_sun_max_memory_BoxedMemory_nativeDeallocate P env c h w).value =
        (P.free w.heap (toUnsigned P.wordBits h)).map (fun _ => 0) := by
  rw [nativeDeallocate_eq]
  exact ⟨callFree_thenReturn_calls P w _ 0, callFree_thenReturn_heap P w _ 0,
    callFree_thenReturn_value P w _ 0⟩

end BoxedMemory
